import Mathlib

/-!
Verification of the hb-hue-tools protocol adapter.

This file gives a shallow embedding of the parts of the repository that the
analyzed properties talk about:

- `lib/HueClient.js`: resource routing in `get`, navigation of the response
  body, `numberOfZigbeeMessages`, the write throttle in `put`, the v1 batch
  response normalization in `request`, the retry path of `request2`, and the
  `apiKey` setter together with `getApiKey`.
- `lib/EventStreamClient.js`: `close` (reconnect policy) and the stream frame
  decoding (`listen` data handler, `_parseContainer`, `_parseUpdate1`,
  `_parseUpdate2`).

JavaScript values that flow through these functions are JSON-shaped; they are
embedded as the inductive `Hue.JValue`.  JSON numbers are embedded as exact
integers (`Int`): every numeric literal appearing in the analyzed code paths
and in the analyzed inputs is integral, and the single non-integral constant
of the source (`2.54` in `_parseUpdate1`) is handled by an exact integer
formula, see `jsRound254`.  JavaScript `undefined` and `null` are both
embedded as `JValue.null`; the analyzed code only ever observes them through
`x == null` / `x != null`, which identifies them.

String primitives of the source (`split`, `trim`, endings) are re-implemented
over `String.data` by structural recursion so that all concrete computations
reduce inside the kernel.
-/

namespace Hue

/-- JSON-shaped JavaScript value. -/
inductive JValue where
  | null : JValue
  | bool : Bool → JValue
  | num : Int → JValue
  | str : String → JValue
  | arr : List JValue → JValue
  | obj : List (String × JValue) → JValue

instance : Inhabited JValue := ⟨JValue.null⟩

/-- Property read `v[k]` on a JavaScript value: on an object, the value of the
first field named `k` (`undefined`, i.e. `JValue.null`, when absent); on an
array, element at the numeric index whose decimal rendering is `k`; on
anything else `undefined`.  (On JavaScript `null`/`undefined` the read would
throw; the analyzed code never performs such a read on a nullish value without
the result being irrelevant, see the comments at the use sites.) -/
def jGet : JValue → String → JValue
  | .obj fields, k => ((fields.find? (fun f => f.1 == k)).map Prod.snd).getD .null
  | .arr xs, k => (((xs.enum.map (fun p => (Nat.repr p.1, p.2))).find?
      (fun f => f.1 == k)).map Prod.snd).getD .null
  | _, _ => .null

/-- The `Object.keys`-with-values view of a value: fields of an object in
insertion order, index/element pairs of an array, `[]` otherwise. -/
def jFields : JValue → List (String × JValue)
  | .obj fields => fields
  | .arr xs => xs.enum.map (fun p => (Nat.repr p.1, p.2))
  | _ => []

/-- The test `v != null && typeof v === 'object'` of the source. -/
def jIsObjLike : JValue → Bool
  | .obj _ => true
  | .arr _ => true
  | _ => false

/-- The test `v == null` (JavaScript loose equality with null, true exactly on
`null` and `undefined`). -/
def jIsNullish : JValue → Bool
  | .null => true
  | _ => false

/-- Strict equality `v === s` against a string literal. -/
def jEqStr (v : JValue) (s : String) : Bool :=
  match v with
  | .str t => t == s
  | _ => false

/-- Strict equality `v === n` against a number literal. -/
def jEqNum (v : JValue) (n : Int) : Bool :=
  match v with
  | .num m => m == n
  | _ => false

/-- JavaScript truthiness of a value. -/
def jTruthy : JValue → Bool
  | .null => false
  | .bool b => b
  | .num n => !(n == 0)
  | .str s => !(s == "")
  | .arr _ => true
  | .obj _ => true

/-- Property assignment `target[k] = v` on a JavaScript object: an existing
field named `k` is updated in place, otherwise the field is appended. -/
def objAssign (fields : List (String × JValue)) (k : String) (v : JValue) :
    List (String × JValue) :=
  if fields.any (fun f => f.1 == k) then
    fields.map (fun f => if f.1 == k then (k, v) else f)
  else
    fields ++ [(k, v)]

/-! String primitives, re-implemented over `String.data` so that they reduce
definitionally.  `jsSplit` matches the semantics of JavaScript
`String.prototype.split` with a non-empty string separator. -/

/-- Splitting worker: scans the character list, cutting at each occurrence of
the (non-empty) separator.  The fuel is an upper bound on the number of
consumed characters; `jsSplit` supplies the length of the input, which
suffices because every step consumes at least one character. -/
def splitAux (sep : List Char) : Nat → List Char → List Char → List (List Char)
  | _, [], acc => [acc.reverse]
  | 0, cs, acc => [acc.reverse ++ cs]
  | fuel + 1, c :: rest, acc =>
    if (c :: rest).take sep.length == sep then
      acc.reverse :: splitAux sep fuel ((c :: rest).drop sep.length) []
    else
      splitAux sep fuel rest (c :: acc)

/-- JavaScript `s.split(sep)` for a non-empty separator string. -/
def jsSplit (s : String) (sep : String) : List String :=
  (splitAux sep.data s.data.length s.data []).map (fun cs => ⟨cs⟩)

/-- JavaScript whitespace test used by `trim` (the code points occurring in
event stream frames). -/
def isWsChar (c : Char) : Bool :=
  c == ' ' || c == '\n' || c == '\t' || c == '\r'

/-- JavaScript `s.trim()`. -/
def jsTrim (s : String) : String :=
  ⟨((s.data.dropWhile isWsChar).reverse.dropWhile isWsChar).reverse⟩

/-- The test `s.slice(-2) === two` for a two-character string `two`: true iff
`s` ends with those two characters. -/
def endsWith2 (s : String) (c1 c2 : Char) : Bool :=
  s.data.reverse.take 2 == [c2, c1]

/-- JavaScript `s.slice(1)`. -/
def strTail (s : String) : String := ⟨s.data.tail⟩

/-- The test `s[0] === c` (false on the empty string, where `s[0]` is
`undefined`). -/
def firstCharIs (s : String) (c : Char) : Bool :=
  match s.data with
  | [] => false
  | d :: _ => d == c

/-- JavaScript `s.startsWith(p)`. -/
def jsStartsWith (s p : String) : Bool :=
  s.data.take p.data.length == p.data

/-- JavaScript `s.slice(0, -1)` — drop the final character. -/
def strDropLast (s : String) : String := s.dropRight 1

-- ===========================================================================
-- Resource routing (lib/HueClient.js, HueClient#get, lines 323-366)
-- ===========================================================================

/-- Which API generation (and hence which request executor and base path) a
call is routed to. -/
inductive Generation where
  | v1 : Generation
  | v2 : Generation
deriving DecidableEq

/-- Result of the routing performed at the top of `HueClient#get`:
the request function chosen (`request` vs `request2`), the transport base
path assigned to `this.path`, the resource string passed to the request
function, and the leftover path segments (`path`) that are walked into the
response body after the fetch. -/
structure Route where
  gen : Generation
  basePath : String
  resource : String
  remainder : List String
deriving DecidableEq

/-- The nine legacy top-level resource names recognized by the `get` switch in
its second group of cases (`info` through `resourcelinks`). -/
def getV1Switch2 (s : String) : Bool :=
  s == "info" || s == "lights" || s == "groups" || s == "schedules" ||
  s == "scenes" || s == "sensors" || s == "rules" || s == "resourcelinks"

/-- Routing logic of `HueClient#get` (lines 323-366).  `apiPath` is
`this._options.path`, i.e. `/api/<key>`.  Returns `none` exactly when the
source throws the `invalid resource` TypeError (input not starting with
`/`). -/
def routeGet (apiPath : String) (resource : String) : Option Route :=
  if !(firstCharIs resource '/') then
    none
  else
    let path := jsSplit (strTail resource) "/"
    let seg0 := path.headD ""
    if seg0 == "" || seg0 == "capabilities" || seg0 == "config" then
      if path.length > 1 then
        some ⟨.v1, apiPath, "/" ++ seg0, path.tail⟩
      else
        some ⟨.v1, apiPath, resource, []⟩
    else if getV1Switch2 seg0 then
      if path.length > 2 then
        some ⟨.v1, apiPath, "/" ++ seg0 ++ "/" ++ path.tail.headD "", path.tail.tail⟩
      else
        some ⟨.v1, apiPath, resource, []⟩
    else
      -- case 'resource' assigns `resource = '/'` and falls through; the
      -- default case overwrites `resource` again whenever two segments
      -- remain, so the assignment is only visible for short paths.
      if path.length ≥ 2 then
        some ⟨.v2, "/clip/v2/resource", "/" ++ seg0 ++ "/" ++ path.tail.headD "",
          "0" :: path.tail.tail⟩
      else
        some ⟨.v2, "/clip/v2/resource", if seg0 == "resource" then "/" else resource, []⟩

-- ===========================================================================
-- Post-fetch navigation (lib/HueClient.js, HueClient#get, lines 368-379)
-- ===========================================================================

/-- The navigation loop of `get`: `for (const key of path) if (typeof body ===
'object' && body != null) body = body[key]`.  Note that a key is silently
skipped (the current value is kept) when the current value is not a non-null
object. -/
def navigate (body : JValue) (path : List String) : JValue :=
  path.foldl (fun b key => if jIsObjLike b then jGet b key else b) body

/-- The tail of `get` after the request: walk the remainder into the body and
throw `not found` when the result is nullish and the remainder was
non-empty. -/
def navResult (resource : String) (body : JValue) (path : List String) :
    Except String JValue :=
  let b := navigate body path
  if jIsNullish b && decide (0 < path.length) then
    .error ("/" ++ String.intercalate "/" path ++ ": not found in resource " ++ resource)
  else
    .ok b

/-- Claim C5 states the failure condition of `get` in these words: the call
fails whenever an intermediate key is absent or an intermediate value is not
a keyed structure.  This definition formalizes that claimed condition (it is
deliberately written from the words of the specification, not from the
source, to be compared against `navResult`). -/
def specResolveFails : JValue → List String → Bool
  | _, [] => false
  | b, k :: rest =>
    if jIsObjLike b then
      match jFields b |>.find? (fun f => f.1 == k) with
      | none => true
      | some f => specResolveFails f.2 rest
  else
      true

-- ===========================================================================
-- Zigbee message estimate (lib/HueClient.js, numberOfZigbeeMessages, 37-58)
-- ===========================================================================

/-- Estimate of the number of Zigbee messages resulting from PUTting `body`
(direct translation of `numberOfZigbeeMessages`). -/
def numberOfZigbeeMessages (body : JValue) : Nat :=
  let keys := (jFields body).map Prod.fst
  let n : Nat :=
    (if keys.contains "on" then 1 else 0) +
    (if keys.contains "bri" || keys.contains "bri_inc" then 1 else 0) +
    (if keys.contains "xy" || keys.contains "ct" || keys.contains "hue" ||
        keys.contains "sat" || keys.contains "effect" then 1 else 0)
  if n == 0 then 1 else n

-- ===========================================================================
-- API v1 batch response normalization (lib/HueClient.js, request, 599-653)
-- ===========================================================================

/-- The fixed set of API error types that could still let (part of) the PUT
command be executed (lines 29-34). -/
def nonCriticalApiErrorTypes : List Int := [6, 7, 8, 201]

/-- The classification `nonCriticalApiErrorTypes.includes(error.type)` with
strict (`===`) element comparison. -/
def isNonCriticalType (t : JValue) : Bool :=
  nonCriticalApiErrorTypes.any (fun n => jEqNum t n)

/-- Entry pushed onto `response.errors` for an item carrying an error object:
`{ type: e.type, description: e.description }` (line 611). -/
structure ErrRec where
  type : JValue
  description : JValue

/-- The HueError built for an item carrying an error object (lines 612-616):
its `type`, `description` and `nonCritical` fields.  It is thrown — aborting
the batch — exactly when `nonCritical` is false. -/
structure ApiErr where
  type : JValue
  description : JValue
  nonCritical : Bool

/-- The accumulating response envelope: `response.errors` and
`response.success`. -/
structure V1State where
  errors : List ErrRec
  success : List (String × JValue)

/-- Success flattening (lines 627-634): for every `path -> value` pair of the
success object, keep only the final path segment as the key in
`response.success`. -/
def recordSuccess (success : List (String × JValue)) (s : JValue) :
    List (String × JValue) :=
  (jFields s).foldl
    (fun acc f =>
      let a := jsSplit f.1 "/"
      objAssign acc (a.getLastD "") f.2)
    success

/-- The success half of the per-item loop body: when the item carries a
success object, flatten it into the envelope. -/
def recordItemSuccess (st : V1State) (item : JValue) : V1State :=
  let s := jGet item "success"
  if jIsObjLike s then
    { st with success := recordSuccess st.success s }
  else
    st

/-- One iteration of the per-item loop of `request` (lines 608-635): record a
carried error object in `response.errors`, throw it when its type is outside
the non-critical set (second component `some`), otherwise fall through to the
success handling of the same item. -/
def processItem (st : V1State) (item : JValue) : V1State × Option ApiErr :=
  let e := jGet item "error"
  if jIsObjLike e then
    let t := jGet e "type"
    let d := jGet e "description"
    let st1 : V1State := { st with errors := st.errors ++ [⟨t, d⟩] }
    if isNonCriticalType t then
      (recordItemSuccess st1 item, none)
    else
      (st1, some ⟨t, d, false⟩)
  else
    (recordItemSuccess st item, none)

/-- The per-item loop of `request`: process items in order, stopping at the
first thrown (critical) error. -/
def processItems (st : V1State) : List JValue → V1State × Option ApiErr
  | [] => (st, none)
  | item :: rest =>
    let r := processItem st item
    match r.2 with
    | none => processItems r.1 rest
    | some e => (r.1, some e)

/-- Normalization of a v1 response body (lines 605-636): the per-item loop
runs only when the body is an array; `response.errors` and `response.success`
start empty. -/
def normalizeV1 (body : JValue) : V1State × Option ApiErr :=
  match body with
  | .arr items => processItems ⟨[], []⟩ items
  | _ => (⟨[], []⟩, none)

/-- The error-record view of an item that carries an error object, as pushed
onto `response.errors`. -/
def errRecOf (item : JValue) : ErrRec :=
  ⟨jGet (jGet item "error") "type", jGet (jGet item "error") "description"⟩

-- ===========================================================================
-- Write throttle (lib/HueClient.js, put/post/delete, lines 392-452)
-- ===========================================================================

/-- The ten legacy top-level resource names used by `put`, `post` and `delete`
to pick the v1 executor (lines 15-26). -/
def apiV1Resources : List String :=
  ["capabilities", "config", "info", "lights", "groups", "schedules",
   "scenes", "sensors", "rules", "resourcelinks"]

/-- The dispatch test `apiV1Resources.includes(resource.slice(1).split('/')[0])`
shared by the three write methods. -/
def isApiV1Resource (resource : String) : Bool :=
  apiV1Resources.contains ((jsSplit (strTail resource) "/").headD "")

/-- Session-level throttle configuration (`waitTimePut`, `waitTimePutGroup`,
in milliseconds). -/
structure ThrottleOpts where
  waitTimePut : Nat
  waitTimePutGroup : Nat
deriving DecidableEq

/-- Abstract steps taken by a write method, in program order.  `awaitGate` is
the loop `while (this.waitForIt) await once(this, '_go')`, i.e. waiting until
the session throttle gate is open (a no-op when it already is); `closeGate`
is setting `this.waitForIt = true` with a timer that reopens the gate after
the hold time; `issue` is the HTTP call through the chosen executor. -/
inductive WriteAction where
  | awaitGate : WriteAction
  | closeGate : Nat → WriteAction
  | issue : Generation → String → String → WriteAction
deriving DecidableEq

/-- Steps of `HueClient#put` (lines 392-419), in order: wait for the gate,
compute the hold time from the Zigbee message estimate, close the gate when
the hold time is positive, then issue the PUT through the executor picked by
the resource name. -/
def putActions (opts : ThrottleOpts) (resource : String) (body : JValue) :
    List WriteAction :=
  let holdTime := numberOfZigbeeMessages body *
    (if jsStartsWith resource "/groups" then opts.waitTimePutGroup else opts.waitTimePut)
  [WriteAction.awaitGate] ++
  (if 0 < holdTime then [WriteAction.closeGate holdTime] else []) ++
  [WriteAction.issue (if isApiV1Resource resource then .v1 else .v2) "PUT" resource]

/-- Steps of `HueClient#post` (lines 428-436): the method issues the call
directly; it contains no interaction with the throttle gate. -/
def postActions (_opts : ThrottleOpts) (resource : String) (_body : JValue) :
    List WriteAction :=
  [WriteAction.issue (if isApiV1Resource resource then .v1 else .v2) "POST" resource]

/-- Steps of `HueClient#delete` (lines 444-452): the method issues the call
directly; it contains no interaction with the throttle gate. -/
def deleteActions (_opts : ThrottleOpts) (resource : String) (_body : JValue) :
    List WriteAction :=
  [WriteAction.issue (if isApiV1Resource resource then .v1 else .v2) "DELETE" resource]

-- ===========================================================================
-- Event stream close / reconnect (lib/EventStreamClient.js, close, 155-173)
-- ===========================================================================

/-- Abstract steps taken by `EventStreamClient#close`, in program order. -/
inductive StreamAction where
  | destroyRequest : StreamAction
  | emitClosed : StreamAction
  | waitMs : Nat → StreamAction
  | relisten : StreamAction
deriving DecidableEq

/-- Steps of `EventStreamClient#close(retry)` (lines 155-173): destroy the
request when one exists, emit `closed` when listening, and — only when called
with `retry` true and the configured retry time is positive — wait
`retryTime * 1000` milliseconds and call `listen()` again.  The socket-level
close handler (line 108) invokes `close(true)`; an explicit caller invocation
uses the default `retry = false`. -/
def closeActions (hasRequest listening : Bool) (retry : Bool) (retryTime : Nat) :
    List StreamAction :=
  (if hasRequest then [StreamAction.destroyRequest] else []) ++
  (if listening then [StreamAction.emitClosed] else []) ++
  (if retry && decide (0 < retryTime) then
    [StreamAction.waitMs (retryTime * 1000), StreamAction.relisten]
  else [])

-- ===========================================================================
-- API key state (lib/HueClient.js, constructor 247-250, apiKey setter
-- 302-310, getApiKey 465-481)
-- ===========================================================================

/-- The credential-derived part of the session options: `_options.apiKey`,
`_options.path`, and the `hue-application-key` entry of `_options.headers`.
`headers = none` means the headers object was never assigned (the constructor
leaves it unset when no key is given); `headers = some v` means it holds the
entry with value `v`, where `v = none` embeds a JavaScript nullish value. -/
structure Session where
  apiKey : Option String
  path : String
  headers : Option (Option String)
deriving DecidableEq

/-- The `apiKey` setter (lines 302-310): store the key, rebuild the headers
object unconditionally, and rebuild the path, appending the key segment only
when the new value is non-nullish. -/
def setApiKey (_st : Session) (value : Option String) : Session :=
  { apiKey := value
    headers := some value
    path :=
      match value with
      | some k => "/api" ++ "/" ++ k
      | none => "/api" }

/-- The credential state established by the constructor (lines 211-250): the
path gains a key segment and the headers object is created only when a
truthy (non-empty) API key is supplied. -/
def mkSession (apiKey : Option String) : Session :=
  match apiKey with
  | some k =>
    if k == "" then ⟨some k, "/api", none⟩
    else ⟨some k, "/api" ++ "/" ++ k, some (some k)⟩
  | none => ⟨none, "/api", none⟩

/-- State effect of `getApiKey` (lines 465-481).  The network exchange (the
unauthenticated POST of `/api` and the `success.username` string extracted
from its envelope) is abstracted by `outcome`.  An empty application name
throws the TypeError before any state is touched; otherwise the key is saved,
cleared via the setter, and on failure restored via the setter; on success
the setter stores the returned username, which is also the return value. -/
def getApiKey (st : Session) (application : String)
    (outcome : Except Unit String) : Session × Except Unit String :=
  if application == "" then
    (st, .error ())
  else
    let saved := st.apiKey
    let st1 := setApiKey st none
    match outcome with
    | .ok username => (setApiKey st1 (some username), .ok username)
    | .error e => (setApiKey st1 saved, .error e)

-- ===========================================================================
-- Request executors and the retry policy (lib/HueClient.js, request 599-653,
-- request2 668-694)
-- ===========================================================================

/-- The fields of a caught exception that the retry policy inspects:
`error.code`, `error.statusCode`, `error.type` and whether `error.request`
is set. -/
structure CaughtErr where
  code : Option String
  statusCode : Option Int
  etype : JValue
  hasRequest : Bool

/-- The thrown HueError of a critical API error, as seen by the catch block:
no transport code or status, `error.type` from the API error, and
`error.request` set (line 613). -/
def apiErrToCaught (e : ApiErr) : CaughtErr :=
  ⟨none, none, e.type, true⟩

/-- The retry test of the two catch blocks: `error.code === 'ECONNRESET' ||
error.statusCode === 503 || error.type === 901`. -/
def retryEligible (e : CaughtErr) : Bool :=
  e.code == some "ECONNRESET" || e.statusCode == some 503 || jEqNum e.etype 901

/-- Result of one attempt of the underlying `super.request` call: either a
parsed response body or a thrown exception. -/
inductive RawOutcome where
  | success : JValue → RawOutcome
  | failure : CaughtErr → RawOutcome

/-- The value a request method resolves with: the v1 envelope built by
`request`, or the `data` array extracted by `request2`. -/
inductive HueResult where
  | v1env : V1State → HueResult
  | v2data : JValue → HueResult

/-- The v1 executor `request` (lines 599-653).  `transport` gives the raw
outcome of attempt number `retry`; the returned list tags every attempt with
the executor that performed and normalized it.  A critical API error thrown
by the normalization is caught by the same catch block and — like a transport
failure — retried against `request` itself while `error.request` is set, the
resend wait time is positive and fewer than 5 retries happened. -/
def requestV1 (waitTimeResend : Nat) (transport : Nat → RawOutcome) (retry : Nat) :
    List Generation × Except CaughtErr HueResult :=
  match transport retry with
  | .success body =>
    let n := normalizeV1 body
    match n.2 with
    | none => ([.v1], .ok (.v1env n.1))
    | some apiErr =>
      let e := apiErrToCaught apiErr
      if h : retryEligible e = true ∧ e.hasRequest = true ∧ 0 < waitTimeResend ∧ retry < 5 then
        let r := requestV1 waitTimeResend transport (retry + 1)
        (.v1 :: r.1, r.2)
      else
        ([.v1], .error e)
  | .failure e =>
    if h : retryEligible e = true ∧ e.hasRequest = true ∧ 0 < waitTimeResend ∧ retry < 5 then
      let r := requestV1 waitTimeResend transport (retry + 1)
      (.v1 :: r.1, r.2)
    else
      ([.v1], .error e)
termination_by 5 - retry
decreasing_by
  all_goals exact Nat.sub_lt_sub_left h.2.2.2 (Nat.lt_succ_self retry)

/-- The v2 executor `request2` (lines 668-694).  On success the body `errors`
entries are only emitted as diagnostics and `response.body` becomes
`response.body.data` (a TypeError when the body is nullish: such an exception
carries no code, status, type or request and is therefore rethrown by the
catch).  On a retry-eligible failure with budget remaining, the retry is
issued through the v1 `request` method (line 689), not through `request2`. -/
def requestV2 (waitTimeResend : Nat) (transport : Nat → RawOutcome) (retry : Nat) :
    List Generation × Except CaughtErr HueResult :=
  match transport retry with
  | .success body =>
    match body with
    | .null =>
      let e : CaughtErr := ⟨none, none, .null, false⟩
      if retryEligible e && e.hasRequest && decide (0 < waitTimeResend) && decide (retry < 5) then
        let r := requestV1 waitTimeResend transport (retry + 1)
        (.v2 :: r.1, r.2)
      else
        ([.v2], .error e)
    | _ => ([.v2], .ok (.v2data (jGet body "data")))
  | .failure e =>
    if retryEligible e && e.hasRequest && decide (0 < waitTimeResend) && decide (retry < 5) then
      let r := requestV1 waitTimeResend transport (retry + 1)
      (.v2 :: r.1, r.2)
    else
      ([.v2], .error e)

-- ===========================================================================
-- Event stream decoding (lib/EventStreamClient.js, listen data handler
-- 126-148, _parseContainer 175-186, _parseUpdate1 188-298, _parseUpdate2
-- 300-324)
-- ===========================================================================

/-- Events emitted while decoding one frame: `changed` (resource plus changed
attributes), `notification` (raw pass-through), and the `error` event emitted
when decoding throws (e.g. `JSON.parse` failure). -/
inductive ESEvent where
  | changed : JValue → List (String × JValue) → ESEvent
  | notification : JValue → ESEvent
  | streamError : ESEvent

/-- The open-brace character, written numerically. -/
def braceOpen : Char := Char.ofNat 123

/-- The close-brace character, written numerically. -/
def braceClose : Char := Char.ofNat 125

/-- Leading JSON whitespace removal. -/
def skipWs : List Char → List Char
  | [] => []
  | c :: rest => if isWsChar c then skipWs rest else c :: rest

/-- Digit test on a character. -/
def isDigitCh (c : Char) : Bool :=
  48 ≤ c.toNat && c.toNat ≤ 57

/-- Decimal value of a digit list. -/
def digitsToNat (ds : List Char) : Nat :=
  ds.foldl (fun acc c => acc * 10 + (c.toNat - 48)) 0

/-- String-body parsing for `JSON.parse`: consume characters up to the
closing quote, decoding the one-character escapes.  The fuel dominates the
number of consumed characters. -/
def parseStrBody : Nat → List Char → List Char → Option (String × List Char)
  | 0, _, _ => none
  | fuel + 1, cs, acc =>
    match cs with
    | [] => none
    | c :: rest =>
      if c == '"' then
        some (⟨acc.reverse⟩, rest)
      else if c == '\\' then
        match rest with
        | [] => none
        | e :: rest2 =>
          let d : Option Char :=
            if e == '"' then some '"'
            else if e == '\\' then some '\\'
            else if e == '/' then some '/'
            else if e == 'n' then some '\n'
            else if e == 't' then some '\t'
            else if e == 'r' then some '\r'
            else none
          match d with
          | some d => parseStrBody fuel rest2 (d :: acc)
          | none => none
      else
        parseStrBody fuel rest (c :: acc)

mutual

/-- Value parsing for `JSON.parse`, restricted to the JSON subset flowing
through the analyzed code: `null`, booleans, integral numbers, strings,
arrays and objects.  (A fractional or exponent part makes the parse fail
rather than misparse; all analyzed payloads are integral.) -/
def parseVal : Nat → List Char → Option (JValue × List Char)
  | 0, _ => none
  | fuel + 1, cs =>
    match skipWs cs with
    | [] => none
    | c :: rest =>
      if c == 'n' then
        if rest.take 3 == ['u', 'l', 'l'] then some (.null, rest.drop 3) else none
      else if c == 't' then
        if rest.take 3 == ['r', 'u', 'e'] then some (.bool true, rest.drop 3) else none
      else if c == 'f' then
        if rest.take 4 == ['a', 'l', 's', 'e'] then some (.bool false, rest.drop 4) else none
      else if c == '"' then
        match parseStrBody (fuel + 1) rest [] with
        | some (s, rest2) => some (.str s, rest2)
        | none => none
      else if c == '[' then
        match skipWs rest with
        | d :: rest2 => if d == ']' then some (.arr [], rest2) else parseArrItems fuel (d :: rest2) []
        | [] => none
      else if c == braceOpen then
        match skipWs rest with
        | d :: rest2 => if d == braceClose then some (.obj [], rest2) else parseObjItems fuel (d :: rest2) []
        | [] => none
      else if c == '-' then
        match rest.takeWhile isDigitCh with
        | [] => none
        | ds => some (.num (-(digitsToNat ds : Int)), rest.dropWhile isDigitCh)
      else if isDigitCh c then
        some (.num (digitsToNat ((c :: rest).takeWhile isDigitCh)),
          (c :: rest).dropWhile isDigitCh)
      else
        none

/-- Array-element list parsing for `JSON.parse`. -/
def parseArrItems : Nat → List Char → List JValue → Option (JValue × List Char)
  | 0, _, _ => none
  | fuel + 1, cs, acc =>
    match parseVal fuel cs with
    | none => none
    | some (v, rest) =>
      match skipWs rest with
      | [] => none
      | d :: rest2 =>
        if d == ',' then parseArrItems fuel rest2 (acc ++ [v])
        else if d == ']' then some (.arr (acc ++ [v]), rest2)
        else none

/-- Object-member list parsing for `JSON.parse`. -/
def parseObjItems : Nat → List Char → List (String × JValue) → Option (JValue × List Char)
  | 0, _, _ => none
  | fuel + 1, cs, acc =>
    match skipWs cs with
    | [] => none
    | c :: rest =>
      if c == '"' then
        match parseStrBody (fuel + 1) rest [] with
        | none => none
        | some (k, rest2) =>
          match skipWs rest2 with
          | [] => none
          | d :: rest3 =>
            if d == ':' then
              match parseVal fuel rest3 with
              | none => none
              | some (v, rest4) =>
                match skipWs rest4 with
                | [] => none
                | e :: rest5 =>
                  if e == ',' then parseObjItems fuel rest5 (acc ++ [(k, v)])
                  else if e == braceClose then some (.obj (acc ++ [(k, v)]), rest5)
                  else none
            else none
      else none

end

/-- JavaScript `JSON.parse`, failing (i.e. throwing) on malformed input or
trailing garbage. -/
def jsonParse (s : String) : Option JValue :=
  match parseVal (s.data.length * 4 + 16) s.data with
  | some (v, rest) => if skipWs rest == [] then some v else none
  | none => none

/-- The three per-entry buckets built by `_parseUpdate1`: top-level
attributes, `state` fields and `config` fields. -/
structure Buckets where
  attr : List (String × JValue)
  state : List (String × JValue)
  config : List (String × JValue)

/-- Exact integer version of `Math.round(b * 2.54)` (line 202) for an
integral brightness `b`: the real value of `b * 2.54 + 0.5` is
`(254 * b + 50) / 100`, and `Math.round` is its floor.  (For the percentage
range the bridge produces, IEEE evaluation of `b * 2.54` rounds to the same
integer as the exact product.) -/
def jsRound254 (b : Int) : Int :=
  Int.fdiv (b * 254 + 50) 100

/-- Numeric field transform: apply `f` when the value is a number; a
non-numeric operand would produce NaN in the source and never occurs in the
analyzed payloads (embedded as null). -/
def jNumMap (v : JValue) (f : Int → Int) : JValue :=
  match v with
  | .num n => .num (f n)
  | _ => .null

/-- String concatenation `resource + suffix` for the `/state` and `/config`
event names; `id_v1` is a string in every stream payload (a non-string would
be coerced by JavaScript; embedded as null). -/
def jStrApp (v : JValue) (suffix : String) : JValue :=
  match v with
  | .str s => .str (s ++ suffix)
  | _ => .null

/-- JavaScript `v.slice(0, -1)` on a string value (strips the trailing zone
marker of a timestamp); a non-string receiver would throw in the source. -/
def jSliceDropLast (v : JValue) : JValue :=
  match v with
  | .str s => .str (strDropLast s)
  | _ => .null

/-- JavaScript `v.startsWith(p)` on a string value; a non-string receiver
would throw in the source. -/
def jStartsWithJ (v : JValue) (p : String) : Bool :=
  match v with
  | .str s => jsStartsWith s p
  | _ => false

/-- Elements iterated by `for (const x of v)`; the analyzed payloads always
carry arrays here (a non-iterable would make the source throw). -/
def jArrItems : JValue → List JValue
  | .arr xs => xs
  | _ => []

/-- String view of a value as rendered by `Array.prototype.join`, which
renders nullish elements as the empty string (only strings and nullish values
occur in the analyzed payloads). -/
def jStrD : JValue → String
  | .str s => s
  | _ => ""

/-- The switch body of `_parseUpdate1` (lines 197-263): route one field of a
changed-data entry into the attribute, state or config bucket, applying the
per-field value transform.  `bm` is `this.buttonMap` (device control id to
legacy button-event base code); `obj` is the whole update notification (for
`creationtime`); `data` is the changed-data entry (for `id_v1` and `id`). -/
def applyKey1 (bm : String → Int) (obj data : JValue) (bk : Buckets)
    (kv : String × JValue) : Buckets :=
  let key := kv.1
  let value := kv.2
  let resource := jGet data "id_v1"
  if key == "on" then
    { bk with state := objAssign bk.state "on" (jGet value "on") }
  else if key == "dimming" then
    { bk with state := objAssign bk.state "bri" (jNumMap (jGet value "brightness") jsRound254) }
  else if key == "color" then
    let xyPair : JValue := .arr [jGet (jGet value "xy") "x", jGet (jGet value "xy") "y"]
    { bk with state := objAssign bk.state "xy" xyPair }
  else if key == "color_temperature" then
    if jTruthy (jGet value "mirek_valid") then
      { bk with state := objAssign bk.state "ct" (jGet value "mirek") }
    else bk
  else if key == "status" then
    if jStartsWithJ resource "/sensors" then
      { bk with config := objAssign bk.config "reachable" (.bool (jEqStr value "connected")) }
    else if jStartsWithJ resource "/scenes" then
      { bk with attr := objAssign bk.attr "active" (jGet value "active") }
    else
      { bk with state := objAssign bk.state "reachable" (.bool (jEqStr value "connected")) }
  else if key == "button" then
    let report := jGet value "button_report"
    let offset : Option Int :=
      if jEqStr (jGet report "event") "initial_press" then some 0
      else if jEqStr (jGet report "event") "repeat" then some 1
      else if jEqStr (jGet report "event") "short_release" then some 2
      else if jEqStr (jGet report "event") "long_release" then some 3
      else none
    let buttonevent : JValue :=
      match jGet data "id", offset with
      | .str id, some o => .num (bm id + o)
      | _, _ => .null
    let st := objAssign bk.state "buttonevent" buttonevent
    let st := objAssign st "lastupdated" (jSliceDropLast (jGet report "updated"))
    { bk with state := st }
  else if key == "relative_rotary" then
    let report := jGet value "rotary_report"
    let rotation := jGet report "rotation"
    let rev : JValue := .num (if jEqStr (jGet report "action") "start" then 1 else 2)
    let rot : JValue := jNumMap (jGet rotation "steps")
      (fun s => s * (if jEqStr (jGet rotation "direction") "clock_wise" then 1 else -1))
    let st := objAssign bk.state "rotaryevent" rev
    let st := objAssign st "expectedrotation" rot
    let st := objAssign st "expectedeventduration" (jGet rotation "duration")
    let st := objAssign st "lastupdated" (jSliceDropLast (jGet report "updated"))
    { bk with state := st }
  else if key == "motion" then
    if jTruthy (jGet value "motion_valid") then
      let st := objAssign bk.state "presence" (jGet value "motion")
      let st := objAssign st "lastupdated" (jSliceDropLast (jGet obj "creationtime"))
      { bk with state := st }
    else bk
  else if key == "light" then
    if jTruthy (jGet value "light_level_valid") then
      let st := objAssign bk.state "lightlevel" (jGet value "light_level")
      let st := objAssign st "lastupdated" (jSliceDropLast (jGet obj "creationtime"))
      { bk with state := st }
    else bk
  else if key == "temperature" then
    if jTruthy (jGet value "temperature_valid") then
      -- Math.round(value.temperature * 100); exact for the integral embedding
      let st := objAssign bk.state "temperature" (jNumMap (jGet value "temperature") (fun t => t * 100))
      let st := objAssign st "lastupdated" (jSliceDropLast (jGet obj "creationtime"))
      { bk with state := st }
    else bk
  else if key == "enabled" then
    { bk with config := objAssign bk.config "on" value }
  else if key == "metadata" then
    { bk with attr := objAssign bk.attr "name" (jGet value "name") }
  else bk

/-- The v1-compatibility update decoder `_parseUpdate1` (lines 188-298): for
each changed-data entry, classify the fields into the three buckets, then
emit one `changed` event per non-empty bucket (attributes on the resource
itself, state and config on the suffixed sub-resources) when `id_v1` is
present; when nothing was emitted for the entry, emit the whole notification
instead. -/
def parseUpdate1 (bm : String → Int) (obj : JValue) : List ESEvent :=
  (jArrItems (jGet obj "data")).flatMap (fun data =>
    let resource := jGet data "id_v1"
    let bk := (jFields data).foldl (applyKey1 bm obj data) ⟨[], [], []⟩
    let evs : List ESEvent :=
      if jIsNullish resource then [] else
        (if bk.attr.isEmpty then [] else [.changed resource bk.attr]) ++
        (if bk.state.isEmpty then [] else [.changed (jStrApp resource "/state") bk.state]) ++
        (if bk.config.isEmpty then [] else [.changed (jStrApp resource "/config") bk.config])
    if evs.isEmpty then [.notification obj] else evs)

/-- The v2-native update decoder `_parseUpdate2` (lines 300-324): the
resource is `/type/id` and all fields except the four identity ones are
copied verbatim into one `changed` event; when nothing remains, the raw
notification is emitted. -/
def parseUpdate2 (obj : JValue) : List ESEvent :=
  (jArrItems (jGet obj "data")).flatMap (fun data =>
    let resource : JValue :=
      .str ("/" ++ jStrD (jGet data "type") ++ "/" ++ jStrD (jGet data "id"))
    let attr := (jFields data).foldl
      (fun acc kv =>
        if kv.1 == "id" || kv.1 == "id_v1" || kv.1 == "owner" || kv.1 == "type" then acc
        else objAssign acc kv.1 kv.2)
      []
    if attr.isEmpty then [.notification obj] else [.changed resource attr])

/-- Notification dispatch `_parseContainer` (lines 175-186): objects of type
`update` go to the generation-specific decoder, everything else is surfaced
as a raw notification.  Iterating a non-array container would throw in the
source; the data handler catches that and emits an error event. -/
def parseContainer (version : Nat) (bm : String → Int) (container : JValue) :
    List ESEvent :=
  match container with
  | .arr objs =>
    objs.flatMap (fun o =>
      if jEqStr (jGet o "type") "update" then
        if version == 1 then parseUpdate1 bm o else parseUpdate2 o
      else [.notification o])
  | _ => [.streamError]

/-- Line loop of the data handler (lines 134-146): each `data: <json>` line
is decoded and dispatched; a `JSON.parse` failure throws into the handler
catch, which emits one error event and abandons the remaining lines of the
frame. -/
def processLines (raw : Bool) (version : Nat) (bm : String → Int) :
    List String → List ESEvent
  | [] => []
  | line :: rest =>
    let a := jsSplit line ": "
    if a.headD "" == "data" then
      match jsonParse (a.getD 1 "") with
      | none => [.streamError]
      | some container =>
        if raw then
          .notification container :: processLines raw version bm rest
        else
          parseContainer version bm container ++ processLines raw version bm rest
    else
      processLines raw version bm rest

/-- The data handler of `listen` (lines 126-148) applied to a buffered
string: nothing happens until the buffer ends with a blank line; a complete
frame is trimmed, split into lines, and each data line decoded. -/
def onData (raw : Bool) (version : Nat) (bm : String → Int) (s : String) :
    List ESEvent :=
  if endsWith2 s '\n' '\n' then
    processLines raw version bm (jsSplit (jsTrim s) "\n")
  else
    []

-- ===========================================================================
-- Concrete fixtures used by the analyzed properties
-- ===========================================================================

/-- The sum of the three field-group indicators of `numberOfZigbeeMessages`
(the value of its local `n` before the floor of 1 is applied). -/
def zigbeeGroupCount (body : JValue) : Nat :=
  let keys := (jFields body).map Prod.fst
  (if keys.contains "on" then 1 else 0) +
  (if keys.contains "bri" || keys.contains "bri_inc" then 1 else 0) +
  (if keys.contains "xy" || keys.contains "ct" || keys.contains "hue" ||
      keys.contains "sat" || keys.contains "effect" then 1 else 0)

/-- Batch item carrying a non-critical (type 7) error object. -/
def c1ErrItem : JValue :=
  .obj [("error", .obj [("type", .num 7), ("address", .str "/lights/1/state/on"),
    ("description", .str "invalid value")])]

/-- Batch item carrying one flattened success path. -/
def c1SuccessItem : JValue :=
  .obj [("success", .obj [("/lights/1/state/on", .bool true)])]

/-- The v1 batch body `[{error:{type:7,...}}, {success:{"/lights/1/state/on":
true}}]`. -/
def c1Body : JValue := .arr [c1ErrItem, c1SuccessItem]

/-- Batch item carrying a critical (type 1) error object. -/
def c2ErrItem : JValue :=
  .obj [("error", .obj [("type", .num 1), ("address", .str "/"),
    ("description", .str "unauthorized user")])]

/-- The v1 batch body with a critical first item followed by a success
item. -/
def c2Body : JValue := .arr [c2ErrItem, c1SuccessItem]

/-- Response body whose `state` attribute is the (non-keyed) number 5. -/
def c5Body : JValue := .obj [("state", .num 5)]

/-- The route computed for `/lights/1/state/on`. -/
def c5Route : Route := ⟨Generation.v1, "/api/K", "/lights/1", ["state", "on"]⟩

/-- Transport schedule whose first attempt is a connection reset and whose
later attempts succeed with an empty batch body. -/
def c7Transport : Nat → RawOutcome := fun n =>
  if n == 0 then .failure ⟨some "ECONNRESET", none, .null, true⟩
  else .success (.arr [])

/-- The caught exception of the first `c7Transport` attempt. -/
def c7Err : CaughtErr := ⟨some "ECONNRESET", none, .null, true⟩

/-- Button map fixture (unused by the analyzed frame). -/
def c8ButtonMap : String → Int := fun _ => 0

/-- The analyzed event stream frame: one data line holding the JSON payload
`[{"type":"update","data":[{"id_v1":"/lights/1","on":{"on":true},"dimming":
{"brightness":50}}]}]`, terminated by a blank line. -/
def c8Frame : String :=
  "data: [\x7b\"type\":\"update\",\"data\":[\x7b\"id_v1\":\"/lights/1\",\"on\":\x7b\"on\":true\x7d,\"dimming\":\x7b\"brightness\":50\x7d\x7d]\x7d]\n\n"

-- ===========================================================================
-- Helper lemmas
-- ===========================================================================

/-- Success recording never touches the error list. -/
theorem recordItemSuccess_errors (st : V1State) (item : JValue) :
    (recordItemSuccess st item).errors = st.errors := by
  unfold recordItemSuccess
  dsimp only
  split <;> rfl

/-- One processed item can only append to the error list. -/
theorem processItem_errors (st : V1State) (item : JValue) :
    ∃ t, (processItem st item).1.errors = st.errors ++ t := by
  unfold processItem
  dsimp only
  split
  · split
    · exact ⟨[errRecOf item], by rw [recordItemSuccess_errors]; rfl⟩
    · exact ⟨[errRecOf item], rfl⟩
  · exact ⟨[], by rw [recordItemSuccess_errors]; simp⟩

/-- The batch loop can only append to the error list. -/
theorem processItems_errors_mono (l : List JValue) :
    ∀ st : V1State, ∃ t, (processItems st l).1.errors = st.errors ++ t := by
  induction l with
  | nil => intro st; exact ⟨[], by simp [processItems]⟩
  | cons item rest ih =>
    intro st
    obtain ⟨t0, ht0⟩ := processItem_errors st item
    cases h2 : (processItem st item).2 with
    | none =>
      obtain ⟨t1, ht1⟩ := ih (processItem st item).1
      refine ⟨t0 ++ t1, ?_⟩
      simp only [processItems, h2]
      rw [ht1, ht0, List.append_assoc]
    | some e =>
      refine ⟨t0, ?_⟩
      simp only [processItems, h2]
      exact ht0

/-- When a prefix of the batch completes without a thrown error, processing
the whole batch continues into the suffix from the state after the prefix. -/
theorem processItems_append_of_none (xs : List JValue) :
    ∀ (ys : List JValue) (st : V1State), (processItems st xs).2 = none →
      processItems st (xs ++ ys) = processItems (processItems st xs).1 ys := by
  induction xs with
  | nil => intro ys st _; rfl
  | cons item rest ih =>
    intro ys st hnone
    cases h2 : (processItem st item).2 with
    | none =>
      have step : processItems st (item :: rest) = processItems (processItem st item).1 rest := by
        simp only [processItems, h2]
      have hnone2 : (processItems (processItem st item).1 rest).2 = none := by
        rw [step] at hnone; exact hnone
      calc processItems st ((item :: rest) ++ ys)
          = processItems (processItem st item).1 (rest ++ ys) := by
            simp only [List.cons_append, List.append_eq, processItems, h2]
        _ = processItems (processItems (processItem st item).1 rest).1 ys := ih ys _ hnone2
        _ = processItems (processItems st (item :: rest)).1 ys := by rw [step]
    | some e =>
      exfalso
      have : (processItems st (item :: rest)).2 = some e := by
        simp only [processItems, h2]
      rw [hnone] at this
      exact Option.noConfusion this

/-- The shape of every `requestV1` outcome: all attempts are performed by the
v1 executor and a resolved value is a v1 envelope. -/
theorem requestV1_shape (n : Nat) :
    ∀ (retry waitTimeResend : Nat) (transport : Nat → RawOutcome), 5 - retry ≤ n →
      (∀ g ∈ (requestV1 waitTimeResend transport retry).1, g = Generation.v1) ∧
      (∀ res, (requestV1 waitTimeResend transport retry).2 = Except.ok res →
        ∃ env, res = HueResult.v1env env) := by
  induction n with
  | zero =>
    intro retry wt tr hle
    have hlt : ¬ (retry < 5) := by omega
    rw [requestV1]
    cases htr : tr retry with
    | success body =>
      dsimp only
      cases hn : (normalizeV1 body).2 with
      | none =>
        constructor
        · intro g hg; simp at hg; exact hg
        · intro res hres; simp at hres; exact ⟨_, hres.symm⟩
      | some apiErr =>
        dsimp only
        rw [dif_neg (fun hcon => hlt hcon.2.2.2)]
        constructor
        · intro g hg; simp at hg; exact hg
        · intro res hres; simp at hres
    | failure e =>
      dsimp only
      rw [dif_neg (fun hcon => hlt hcon.2.2.2)]
      constructor
      · intro g hg; simp at hg; exact hg
      · intro res hres; simp at hres
  | succ n ih =>
    intro retry wt tr hle
    rw [requestV1]
    cases htr : tr retry with
    | success body =>
      dsimp only
      cases hn : (normalizeV1 body).2 with
      | none =>
        constructor
        · intro g hg; simp at hg; exact hg
        · intro res hres; simp at hres; exact ⟨_, hres.symm⟩
      | some apiErr =>
        dsimp only
        by_cases hcond : retryEligible (apiErrToCaught apiErr) = true ∧
            (apiErrToCaught apiErr).hasRequest = true ∧ 0 < wt ∧ retry < 5
        · rw [dif_pos hcond]
          have hrec := ih (retry + 1) wt tr (by omega)
          constructor
          · intro g hg
            rcases List.mem_cons.mp hg with h | h
            · exact h
            · exact hrec.1 g h
          · exact hrec.2
        · rw [dif_neg hcond]
          constructor
          · intro g hg; simp at hg; exact hg
          · intro res hres; simp at hres
    | failure e =>
      dsimp only
      by_cases hcond : retryEligible e = true ∧ e.hasRequest = true ∧ 0 < wt ∧ retry < 5
      · rw [dif_pos hcond]
        have hrec := ih (retry + 1) wt tr (by omega)
        constructor
        · intro g hg
          rcases List.mem_cons.mp hg with h | h
          · exact h
          · exact hrec.1 g h
        · exact hrec.2
      · rw [dif_neg hcond]
        constructor
        · intro g hg; simp at hg; exact hg
        · intro res hres; simp at hres

/-- Arithmetic fact: the floor of 1 applied by `numberOfZigbeeMessages` is a
maximum with 1. -/
theorem floorOne_eq_max (n : Nat) : (if n == 0 then 1 else n) = max 1 n := by
  cases n with
  | zero => rfl
  | succ m =>
    show m + 1 = max 1 (m + 1)
    omega

-- ===========================================================================
-- Analyzed properties
-- ===========================================================================

/-- C1: in a v1 batch response, every item carrying an error object whose
type is in the non-critical set is recorded in the envelope error list and
processing continues to the next item; in particular the body
`[{error:{type:7,...}}, {success:{"/lights/1/state/on": true}}]` yields
exactly one non-critical error record and the success entry `{on: true}`. -/
theorem c1_nonCriticalContinues :
    (∀ (st : V1State) (item : JValue) (rest : List JValue),
      jIsObjLike (jGet item "error") = true →
      isNonCriticalType (jGet (jGet item "error") "type") = true →
      errRecOf item ∈ (processItems st (item :: rest)).1.errors ∧
      (processItem st item).2 = none ∧
      processItems st (item :: rest) = processItems (processItem st item).1 rest) ∧
    normalizeV1 c1Body =
      (⟨[⟨.num 7, .str "invalid value"⟩], [("on", .bool true)]⟩, none) := by
  constructor
  · intro st item rest he hnc
    have h2 : (processItem st item).2 = none := by
      unfold processItem
      dsimp only
      rw [if_pos he, if_pos hnc]
    have h3 : processItems st (item :: rest) = processItems (processItem st item).1 rest := by
      simp only [processItems, h2]
    have h4 : (processItem st item).1.errors = st.errors ++ [errRecOf item] := by
      unfold processItem
      dsimp only
      rw [if_pos he, if_pos hnc]
      rw [recordItemSuccess_errors]
      rfl
    refine ⟨?_, h2, h3⟩
    obtain ⟨t, ht⟩ := processItems_errors_mono rest (processItem st item).1
    rw [h3, ht, h4]
    simp
  · rfl

/-- Witness for C1 at the concrete batch of the specification. -/
theorem c1_witness :
    jIsObjLike (jGet c1ErrItem "error") = true ∧
    isNonCriticalType (jGet (jGet c1ErrItem "error") "type") = true ∧
    (errRecOf c1ErrItem ∈ (processItems ⟨[], []⟩ (c1ErrItem :: [c1SuccessItem])).1.errors ∧
      (processItem ⟨[], []⟩ c1ErrItem).2 = none ∧
      processItems ⟨[], []⟩ (c1ErrItem :: [c1SuccessItem]) =
        processItems (processItem ⟨[], []⟩ c1ErrItem).1 [c1SuccessItem]) :=
  ⟨rfl, rfl, c1_nonCriticalContinues.1 ⟨[], []⟩ c1ErrItem [c1SuccessItem] rfl rfl⟩

/-- C2: the first item of a v1 batch response carrying an error object whose
type is outside the non-critical set makes the call fail with that error, and
no item after it is processed — the envelope is exactly the envelope of the
preceding items plus the error record, whatever the remaining items are; in
particular with `type:1` first, the second item success entry is never
recorded. -/
theorem c2_criticalAborts :
    (∀ (st : V1State) (pre : List JValue) (item : JValue) (rest : List JValue),
      (processItems st pre).2 = none →
      jIsObjLike (jGet item "error") = true →
      isNonCriticalType (jGet (jGet item "error") "type") = false →
      processItems st (pre ++ item :: rest) =
        (⟨(processItems st pre).1.errors ++ [errRecOf item], (processItems st pre).1.success⟩,
          some ⟨jGet (jGet item "error") "type", jGet (jGet item "error") "description", false⟩)) ∧
    normalizeV1 c2Body =
      (⟨[⟨.num 1, .str "unauthorized user"⟩], []⟩,
        some ⟨.num 1, .str "unauthorized user", false⟩) := by
  constructor
  · intro st pre item rest hp he hc
    rw [processItems_append_of_none pre (item :: rest) st hp]
    have hitem : processItem (processItems st pre).1 item =
        (⟨(processItems st pre).1.errors ++ [errRecOf item], (processItems st pre).1.success⟩,
          some ⟨jGet (jGet item "error") "type", jGet (jGet item "error") "description", false⟩) := by
      unfold processItem
      dsimp only
      rw [if_pos he, if_neg (by rw [hc]; exact Bool.false_ne_true)]
      rfl
    simp only [processItems, hitem]
  · rfl

/-- Witness for C2 at the concrete batch of the specification. -/
theorem c2_witness :
    (processItems (⟨[], []⟩ : V1State) []).2 = none ∧
    jIsObjLike (jGet c2ErrItem "error") = true ∧
    isNonCriticalType (jGet (jGet c2ErrItem "error") "type") = false ∧
    processItems ⟨[], []⟩ ([] ++ c2ErrItem :: [c1SuccessItem]) =
      (⟨(processItems (⟨[], []⟩ : V1State) []).1.errors ++ [errRecOf c2ErrItem],
          (processItems (⟨[], []⟩ : V1State) []).1.success⟩,
        some ⟨jGet (jGet c2ErrItem "error") "type",
          jGet (jGet c2ErrItem "error") "description", false⟩) :=
  ⟨rfl, rfl, rfl, c2_criticalAborts.1 ⟨[], []⟩ [] c2ErrItem [c1SuccessItem] rfl rfl rfl⟩

/-- C3 counterexample: routing `/resource/light/3` does not produce the
addressed resource `/light/3` with remainder `["3","0"]` claimed by the
specification: the `resource` segment is consumed as the v2 type and the
injected index `0` is placed first. -/
theorem c3_counterexample :
    routeGet "/api/0123456789abcdef" "/resource/light/3" ≠
      some ⟨Generation.v2, "/clip/v2/resource", "/light/3", ["3", "0"]⟩ := by
  decide

/-- C3 amended: routing `/resource/light/3` classifies it as v2 with base
path `/clip/v2/resource`, addressed resource `/resource/light` (the literal
`resource` segment is consumed as the v2 type), and navigation remainder
`["0","3"]` (the injected index segment `0` comes first). -/
theorem c3_routing :
    ∀ apiPath : String,
      routeGet apiPath "/resource/light/3" =
        some ⟨Generation.v2, "/clip/v2/resource", "/resource/light", ["0", "3"]⟩ :=
  fun _ => rfl

/-- C4 counterexample: `post` (and `delete`) issue their HTTP call without
ever waiting on the throttle gate. -/
theorem c4_counterexample :
    WriteAction.awaitGate ∉ postActions ⟨50, 1000⟩ "/lights" (.obj []) ∧
    postActions ⟨50, 1000⟩ "/lights" (.obj []) =
      [WriteAction.issue Generation.v1 "POST" "/lights"] ∧
    WriteAction.awaitGate ∉ deleteActions ⟨50, 1000⟩ "/lights/66" (.obj []) := by
  refine ⟨?_, rfl, ?_⟩ <;> decide

/-- C4 amended: among the write operations only `put` acquires the write
throttle — it waits on the gate as its first step, before its HTTP call —
while `post` and `delete` never interact with the gate. -/
theorem c4_throttleGate :
    ∀ (opts : ThrottleOpts) (resource : String) (body : JValue),
      (∃ tail, putActions opts resource body = WriteAction.awaitGate :: tail) ∧
      WriteAction.awaitGate ∉ postActions opts resource body ∧
      WriteAction.awaitGate ∉ deleteActions opts resource body := by
  intro opts resource body
  refine ⟨⟨_, rfl⟩, ?_, ?_⟩
  · simp [postActions]
  · simp [deleteActions]

/-- C5 counterexample: for the GET of `/lights/1/state/on` against a body
whose `state` attribute is the number 5, the specification failure condition
holds (the intermediate value is not a keyed structure) yet the call does not
fail — the navigation loop skips the key and returns 5. -/
theorem c5_counterexample :
    routeGet "/api/K" "/lights/1/state/on" = some c5Route ∧
    specResolveFails c5Body ["state", "on"] = true ∧
    navResult "/lights/1" c5Body ["state", "on"] = .ok (.num 5) :=
  ⟨rfl, rfl, rfl⟩

/-- C5 amended: for a GET whose routing leaves a non-empty navigation
remainder, the call fails with NotFound iff the walked value — where each key
is applied only when the current value is a non-null object, and is skipped
otherwise — ends up nullish; otherwise that walked value is returned. -/
theorem c5_navigation :
    ∀ (apiPath resource : String) (r : Route) (body : JValue),
      routeGet apiPath resource = some r →
      r.remainder ≠ [] →
      ((∃ msg, navResult r.resource body r.remainder = Except.error msg) ↔
        jIsNullish (navigate body r.remainder) = true) ∧
      (jIsNullish (navigate body r.remainder) = false →
        navResult r.resource body r.remainder = .ok (navigate body r.remainder)) := by
  intro apiPath resource r body _ hne
  have hlen : 0 < r.remainder.length := List.length_pos.mpr hne
  cases hb : jIsNullish (navigate body r.remainder) with
  | true =>
    constructor
    · constructor
      · intro _; rfl
      · intro _
        refine ⟨"/" ++ String.intercalate "/" r.remainder ++ ": not found in resource "
          ++ r.resource, ?_⟩
        unfold navResult
        dsimp only
        rw [hb]
        simp [hlen]
    · intro hfalse
      simp at hfalse
  | false =>
    have hok : navResult r.resource body r.remainder = .ok (navigate body r.remainder) := by
      unfold navResult
      dsimp only
      rw [hb]
      simp
    constructor
    · constructor
      · intro hmsg
        obtain ⟨msg, hmsg⟩ := hmsg
        rw [hok] at hmsg
        exact Except.noConfusion hmsg
      · intro htrue
        simp at htrue
    · intro _; exact hok

/-- Witness for C5 at the concrete route and body of the counterexample. -/
theorem c5_witness :
    routeGet "/api/K" "/lights/1/state/on" = some c5Route ∧
    c5Route.remainder ≠ [] ∧
    (((∃ msg, navResult c5Route.resource c5Body c5Route.remainder = Except.error msg) ↔
        jIsNullish (navigate c5Body c5Route.remainder) = true) ∧
      (jIsNullish (navigate c5Body c5Route.remainder) = false →
        navResult c5Route.resource c5Body c5Route.remainder =
          .ok (navigate c5Body c5Route.remainder))) :=
  ⟨rfl, by decide,
    c5_navigation "/api/K" "/lights/1/state/on" c5Route c5Body rfl (by decide)⟩

/-- C6: an explicit close (default `retry = false`) never reconnects; the
socket-level close path (`retry = true`) with a positive retry time ends by
waiting `retryTime` seconds (`retryTime * 1000` ms) and invoking `listen`
again. -/
theorem c6_closeRetry :
    ∀ (hasRequest listening : Bool) (retryTime : Nat),
      StreamAction.relisten ∉ closeActions hasRequest listening false retryTime ∧
      (0 < retryTime →
        List.IsSuffix [StreamAction.waitMs (retryTime * 1000), StreamAction.relisten]
          (closeActions hasRequest listening true retryTime)) := by
  intro hasRequest listening retryTime
  constructor
  · cases hasRequest <;> cases listening <;> simp [closeActions]
  · intro h
    have hcond : (true && decide (0 < retryTime)) = true := by simp [h]
    unfold closeActions
    rw [hcond]
    simp only [if_true]
    refine ⟨(if hasRequest = true then [StreamAction.destroyRequest] else []) ++
      (if listening = true then [StreamAction.emitClosed] else []), ?_⟩
    simp

/-- Witness for C6 at a session with an open request, listening, and the
default retry time of 10 seconds. -/
theorem c6_witness :
    StreamAction.relisten ∉ closeActions true true false 10 ∧
    (0 < 10) ∧
    List.IsSuffix [StreamAction.waitMs (10 * 1000), StreamAction.relisten]
      (closeActions true true true 10) :=
  ⟨(c6_closeRetry true true 10).1, by decide, (c6_closeRetry true true 10).2 (by decide)⟩

/-- C7: when `request2` catches a retry-eligible failure with retry budget
remaining, it re-issues the call through the v1 `request` method: the result
is the v2 attempt followed, verbatim, by the outcome of `requestV1` on the
next attempt number, every subsequent attempt is performed by the v1
executor, and a resolved value is then a v1-normalized envelope. -/
theorem c7_retryUsesV1 :
    ∀ (waitTimeResend : Nat) (transport : Nat → RawOutcome) (retry : Nat) (e : CaughtErr),
      transport retry = .failure e →
      retryEligible e = true →
      e.hasRequest = true →
      0 < waitTimeResend →
      retry < 5 →
      requestV2 waitTimeResend transport retry =
        (Generation.v2 :: (requestV1 waitTimeResend transport (retry + 1)).1,
          (requestV1 waitTimeResend transport (retry + 1)).2) ∧
      (∀ g ∈ (requestV1 waitTimeResend transport (retry + 1)).1, g = Generation.v1) ∧
      (∀ res, (requestV1 waitTimeResend transport (retry + 1)).2 = Except.ok res →
        ∃ env, res = HueResult.v1env env) := by
  intro wt tr retry e htr h1 h2 h3 h4
  refine ⟨?_, (requestV1_shape (5 - (retry + 1)) (retry + 1) wt tr le_rfl).1,
    (requestV1_shape (5 - (retry + 1)) (retry + 1) wt tr le_rfl).2⟩
  rw [requestV2, htr]
  simp [h1, h2, h3, h4]

/-- Witness for C7: a connection reset on the first attempt with the default
resend wait of 300 ms. -/
theorem c7_witness :
    c7Transport 0 = RawOutcome.failure c7Err ∧
    retryEligible c7Err = true ∧
    c7Err.hasRequest = true ∧
    0 < 300 ∧ 0 < 5 ∧
    requestV2 300 c7Transport 0 =
      (Generation.v2 :: (requestV1 300 c7Transport 1).1, (requestV1 300 c7Transport 1).2) :=
  ⟨rfl, rfl, rfl, by decide, by decide,
    (c7_retryUsesV1 300 c7Transport 0 c7Err rfl rfl rfl (by decide) (by decide)).1⟩

/-- C8: decoding the complete v1-compatibility stream frame whose data line
carries `[{"type":"update","data":[{"id_v1":"/lights/1","on":{"on":true},
"dimming":{"brightness":50}}]}]` yields exactly one change event, for
`/lights/1/state` with `{on: true, bri: 127}` (brightness 50 scaled by
`Math.round(50 * 2.54) = 127`), and no other change or notification event. -/
theorem c8_frameDecode :
    onData false 1 c8ButtonMap c8Frame =
      [ESEvent.changed (.str "/lights/1/state") [("on", .bool true), ("bri", .num 127)]] ∧
    jsRound254 50 = 127 :=
  ⟨rfl, rfl⟩

/-- C9: the Zigbee message estimate is 1 for `{on:true}`, 2 for a body with
`bri` and `xy`, 1 for the empty body; for every body it is the maximum of 1
and the number of present field groups (on/off; brightness; color). -/
theorem c9_zigbeeMessages :
    numberOfZigbeeMessages (.obj [("on", .bool true)]) = 1 ∧
    numberOfZigbeeMessages (.obj [("bri", .num 100), ("xy", .arr [.num 0, .num 0])]) = 2 ∧
    numberOfZigbeeMessages (.obj []) = 1 ∧
    (∀ body : JValue, numberOfZigbeeMessages body = max 1 (zigbeeGroupCount body)) ∧
    (∀ body : JValue, 1 ≤ numberOfZigbeeMessages body) := by
  have hmax : ∀ body : JValue, numberOfZigbeeMessages body = max 1 (zigbeeGroupCount body) := by
    intro body
    simp only [numberOfZigbeeMessages, zigbeeGroupCount]
    exact floorOne_eq_max _
  refine ⟨rfl, rfl, rfl, hmax, ?_⟩
  intro body
  rw [hmax body]
  exact Nat.le_max_left 1 _

/-- C10 counterexample: when no API key was set, a failing `getApiKey` does
not leave the session state unchanged — the headers object, absent before the
call, now exists with a nullish `hue-application-key` entry. -/
theorem c10_counterexample :
    (getApiKey (mkSession none) "app" (.error ())).2 = Except.error () ∧
    (getApiKey (mkSession none) "app" (.error ())).1 ≠ mkSession none ∧
    (getApiKey (mkSession none) "app" (.error ())).1.headers = some none ∧
    (mkSession none).headers = none := by
  refine ⟨rfl, ?_, rfl, rfl⟩
  decide

/-- C10 amended: on failure `getApiKey` re-runs the setter on the saved key,
so `apiKey` is always restored and the whole credential state is restored
exactly whenever the pre-state was itself setter-derived (in particular for
any non-empty stored key); the headers object alone is rebuilt rather than
restored when no key had been set.  On success the newly created key is
stored and returned. -/
theorem c10_restore :
    ∀ (st : Session) (application : String) (u : String),
      application ≠ "" →
      (getApiKey st application (.error ())).1 = setApiKey st st.apiKey ∧
      (getApiKey st application (.error ())).1.apiKey = st.apiKey ∧
      (getApiKey st application (.error ())).2 = Except.error () ∧
      (st = setApiKey st st.apiKey → (getApiKey st application (.error ())).1 = st) ∧
      (getApiKey st application (.ok u)).1.apiKey = some u ∧
      (getApiKey st application (.ok u)).2 = Except.ok u := by
  intro st application u happ
  have happ2 : (application == "") = false := by
    simp only [beq_eq_false_iff_ne, ne_eq]
    exact happ
  refine ⟨?_, ?_, ?_, ?_, ?_, ?_⟩ <;>
    simp [getApiKey, setApiKey, happ2]
  intro hst
  rw [hst]

/-- Witness for C10 at a session holding the key `K`. -/
theorem c10_witness :
    ("app" : String) ≠ "" ∧
    ((getApiKey (mkSession (some "K")) "app" (.error ())).1 =
        setApiKey (mkSession (some "K")) (mkSession (some "K")).apiKey ∧
      (getApiKey (mkSession (some "K")) "app" (.error ())).1.apiKey =
        (mkSession (some "K")).apiKey ∧
      (getApiKey (mkSession (some "K")) "app" (.error ())).2 = Except.error () ∧
      (mkSession (some "K") = setApiKey (mkSession (some "K")) (mkSession (some "K")).apiKey →
        (getApiKey (mkSession (some "K")) "app" (.error ())).1 = mkSession (some "K")) ∧
      (getApiKey (mkSession (some "K")) "app" (.ok "NEW")).1.apiKey = some "NEW" ∧
      (getApiKey (mkSession (some "K")) "app" (.ok "NEW")).2 = Except.ok "NEW") :=
  ⟨by decide, c10_restore (mkSession (some "K")) "app" "NEW" (by decide)⟩

end Hue
